import Mathlib

/-!
Verification of the dB-Sentry interface-service menu engine.

Shallow embedding of the Python sources:
  * `src/interface-service/interface/menu.py`         (`Menu`, frame pre-rendering)
  * `src/interface-service/interface/oled_display.py` (`OledDisplay` cursor/scroll state)
  * `src/interface-service/interface/dynamic_menu.py` (`DynamicMenu` controller)
  * `src/interface-service/utils/limit_service_api.py` (`LimitServiceAPI`)
  * `src/limit-service/utils/user_settings.py`        (`UserSettings`)

Python machine-level conventions used throughout:
  * Python `float` arithmetic is modelled with `ℚ`; the constants involved
    (pixel widths, brightness bounds) are small enough that no rounding result
    in any theorem below depends on binary-float error.
  * Python's built-in `round` is round-half-to-even (`pythonRound`),
    `int(...)` on a float truncates toward zero (`pyInt`).
  * A Python dict is modelled as a function into `Option`.
  * A collaborator call that may raise is modelled as an `Except PyErr`
    value supplied by the environment.
-/

namespace DBSentry

/-- Python exception payload (only its presence matters). -/
abbrev PyErr := String

/-- Python's built-in `round`: round half to even (banker's rounding). -/
def pythonRound (q : ℚ) : ℤ :=
  let f : ℤ := ⌊q⌋
  let r : ℚ := q - f
  if r < 1/2 then f
  else if 1/2 < r then f + 1
  else if f % 2 = 0 then f else f + 1

/-- Python `int(x)` on a float: truncation toward zero (`Int.tdiv`). -/
def pyInt (q : ℚ) : ℤ := q.num.tdiv q.den

/-- Python `max(lo, min(hi, x))` on rationals, as written at the clamp sites. -/
def clampQ (lo hi x : ℚ) : ℚ := max lo (min hi x)

/-- Python `max(lo, min(hi, x))` on integers. -/
def clampZ (lo hi x : ℤ) : ℤ := max lo (min hi x)

theorem pythonRound_mem : ∀ q : ℚ, pythonRound q = ⌊q⌋ ∨ pythonRound q = ⌊q⌋ + 1 := by
  intro q
  unfold pythonRound
  dsimp only
  split
  · exact Or.inl rfl
  · split
    · exact Or.inr rfl
    · split
      · exact Or.inl rfl
      · exact Or.inr rfl

theorem pythonRound_lower {lo : ℤ} {q : ℚ} (h : (lo : ℚ) ≤ q) : lo ≤ pythonRound q := by
  have hfl : lo ≤ ⌊q⌋ := Int.le_floor.mpr h
  rcases pythonRound_mem q with h' | h' <;> omega

theorem pythonRound_upper {hi : ℤ} {q : ℚ} (h : q ≤ (hi : ℚ)) : pythonRound q ≤ hi := by
  have hfl : ⌊q⌋ ≤ hi := by
    have := Int.floor_le_floor h
    simpa using this
  rcases pythonRound_mem q with h' | h'
  · omega
  · -- the `⌊q⌋ + 1` branches all require `1/2 ≤ q - ⌊q⌋`, hence `⌊q⌋ < q`
    have hq : (⌊q⌋ : ℚ) < q := by
      by_contra hcon
      push_neg at hcon
      have heq : q = (⌊q⌋ : ℚ) := le_antisymm hcon (Int.floor_le q)
      have hr : q - (⌊q⌋ : ℚ) = 0 := sub_eq_zero.mpr heq
      unfold pythonRound at h'
      dsimp only at h'
      rw [hr] at h'
      norm_num at h'
    have hlt : ⌊q⌋ < hi := by
      have : (⌊q⌋ : ℚ) < (hi : ℚ) := lt_of_lt_of_le hq h
      exact_mod_cast this
    omega

/-- Integer-bounds preservation for clamp-then-round (the pattern used by
every bar-type rotation step in `DynamicMenu.encoder_rotated`). -/
theorem pythonRound_clampQ_mem {lo hi : ℤ} (h : lo ≤ hi) (x : ℚ) :
    lo ≤ pythonRound (clampQ lo hi x) ∧ pythonRound (clampQ lo hi x) ≤ hi := by
  have hlo : (lo : ℚ) ≤ clampQ lo hi x := le_max_left _ _
  have hhi : clampQ lo hi x ≤ (hi : ℚ) := by
    apply max_le
    · exact_mod_cast h
    · exact min_le_left _ _
  exact ⟨pythonRound_lower hlo, pythonRound_upper hhi⟩

theorem clampZ_mem {lo hi : ℤ} (h : lo ≤ hi) (x : ℤ) :
    lo ≤ clampZ lo hi x ∧ clampZ lo hi x ≤ hi := by
  unfold clampZ
  constructor
  · exact le_max_left _ _
  · exact max_le h (min_le_left _ _)

theorem clampQ_mem {lo hi : ℚ} (h : lo ≤ hi) (x : ℚ) :
    lo ≤ clampQ lo hi x ∧ clampQ lo hi x ≤ hi := by
  unfold clampQ
  exact ⟨le_max_left _ _, max_le h (min_le_left _ _)⟩

/-! ## `UserSettings` (src/limit-service/utils/user_settings.py) -/

/-- A value stored in the settings JSON dict. -/
inductive SettingVal where
  | intV (z : ℤ)
  | strV (s : String)
  | fltV (q : ℚ)
  deriving DecidableEq

/-- The in-memory `self.settings` dict (`_save` persists it best-effort;
the getters read this dict, so it is the authoritative store). -/
structure UserSettings where
  store : String → Option SettingVal

/-- `UserSettings.get(key, default)`. -/
def UserSettings.get (u : UserSettings) (key : String) (dflt : SettingVal) : SettingVal :=
  (u.store key).getD dflt

/-- `UserSettings.set(key, value)`: updates the dict (and persists, modelled
as updating the same authoritative store). -/
def UserSettings.set (u : UserSettings) (key : String) (v : SettingVal) : UserSettings :=
  ⟨fun k => if k = key then some v else u.store k⟩

/-- `UserSettings.get_display_brightness`. -/
def UserSettings.getDisplayBrightness (u : UserSettings) : SettingVal :=
  u.get "display_brightness" (.intV 180)

/-- `UserSettings.set_display_brightness`: clamps to `[0,255]` then stores. -/
def UserSettings.setDisplayBrightness (u : UserSettings) (v : ℤ) : UserSettings :=
  u.set "display_brightness" (.intV (max 0 (min 255 v)))

/-- `UserSettings.get_led_brightness`. -/
def UserSettings.getLedBrightness (u : UserSettings) : SettingVal :=
  u.get "led_brightness" (.intV 255)

/-- `UserSettings.set_led_brightness`: clamps to `[0,255]` then stores. -/
def UserSettings.setLedBrightness (u : UserSettings) (v : ℤ) : UserSettings :=
  u.set "led_brightness" (.intV (max 0 (min 255 v)))

/-! ## `Menu` frame pre-rendering (src/interface-service/interface/menu.py) -/

/-- A formatted menu entry as produced by `DynamicMenu._format_menu_text`:
either a bare string (text only) or a payload dict with optional
`right_text` and a `submenu` flag. -/
structure FmtItem where
  text : String
  rightText : Option String
  submenu : Bool
  deriving DecidableEq

/-- `Menu._get_right_text`: on a dict, `str(x) if x else ''` — an absent or
empty (falsy) `right_text` yields `""`. -/
def FmtItem.rightTextStr (it : FmtItem) : String := it.rightText.getD ""

/-- The information one pre-rendered row encodes: its text, right-aligned
text and submenu (`>>`) marker.  When the row's text is empty (falsy) the
renderer draws nothing at all on that row. -/
structure FrameRow where
  text : String
  right : String
  marker : Bool
  deriving DecidableEq

def mkRow (text right : String) (marker : Bool) : FrameRow :=
  if text = "" then ⟨"", "", false⟩ else ⟨text, right, marker⟩

/-- The information a pre-rendered bitmap encodes: three rows, the middle
one highlighted (exact pixel layout is out of scope per the spec's
non-goals; a frame determines the bitmap). -/
structure Frame where
  row1 : FrameRow
  row2 : FrameRow
  row3 : FrameRow
  deriving DecidableEq

/-- `Menu`: the padded item lists (`[""] + items + [""]`). -/
structure MenuL where
  texts : List String
  rightTexts : List String
  submenus : List Bool
  deriving DecidableEq

/-- `Menu.__init__` on a list of formatted items: pad with one leading and
one trailing blank sentinel. -/
def MenuL.ofItems (items : List FmtItem) : MenuL :=
  { texts := "" :: items.map (·.text) ++ [""]
    rightTexts := "" :: items.map (·.rightTextStr) ++ [""]
    submenus := false :: items.map (·.submenu) ++ [false] }

/-- `len(menu)` — the padded length. -/
def MenuL.len (m : MenuL) : ℕ := m.texts.length

/-- The frame pre-rendered for a given scroll offset: rows `offset`,
`offset+1` (highlighted), `offset+2`. -/
def MenuL.renderFrame (m : MenuL) (i : ℕ) : Frame :=
  { row1 := mkRow (m.texts.getD i "") (m.rightTexts.getD i "") (m.submenus.getD i false)
    row2 := mkRow (m.texts.getD (i+1) "") (m.rightTexts.getD (i+1) "") (m.submenus.getD (i+1) false)
    row3 := mkRow (m.texts.getD (i+2) "") (m.rightTexts.getD (i+2) "") (m.submenus.getD (i+2) false) }

/-- `Menu._prerender_frames` populates `_frame_cache` with key `(i, 0)` for
every `i` in `range(len(self.items) - 2)`; modelled as the dict it builds. -/
def MenuL.frameCache (m : MenuL) (i : ℕ) : Option Frame :=
  if i < m.len - 2 then some (m.renderFrame i) else none

/-- `Menu.get_frame`: clamp the requested scroll index into
`[0, len(items) - 3]` (lower bound `0` when the menu is tiny), then look the
clamped key up in the cache. -/
def MenuL.getFrame (m : MenuL) (k : ℤ) : Option Frame :=
  let maxIndex : ℤ := (m.len : ℤ) - 3
  let maxIndex : ℤ := if maxIndex < 0 then 0 else maxIndex
  let clamped : ℤ := max 0 (min k maxIndex)
  m.frameCache clamped.toNat

/-! ## `OledDisplay` navigation state (src/interface-service/interface/oled_display.py) -/

/-- The mutable display state: loaded menu, scroll index, cursor line. -/
structure DisplayState where
  currentMenu : Option MenuL
  scrollIndex : ℕ
  cursorPosition : ℕ
  deriving DecidableEq

/-- `OledDisplay.get_selected_item_index`: `scroll_index + cursor_position`. -/
def DisplayState.getSelectedItemIndex (d : DisplayState) : ℕ :=
  d.scrollIndex + d.cursorPosition

/-- `OledDisplay.move_cursor_down`. -/
def DisplayState.moveCursorDown (d : DisplayState) : DisplayState :=
  match d.currentMenu with
  | none => d
  | some m =>
      if d.cursorPosition = 0 ∧ m.len > d.scrollIndex + 1 then
        { d with cursorPosition := 1 }
      else if d.cursorPosition = 1 ∧ m.len > d.scrollIndex + 2 then
        { d with scrollIndex := d.scrollIndex + 1 }
      else d

/-- `OledDisplay.move_cursor_up`. -/
def DisplayState.moveCursorUp (d : DisplayState) : DisplayState :=
  match d.currentMenu with
  | none => d
  | some _ =>
      if d.cursorPosition = 1 then
        { d with cursorPosition := 0 }
      else if d.cursorPosition = 0 ∧ d.scrollIndex > 0 then
        { d with scrollIndex := d.scrollIndex - 1 }
      else d

/-- `OledDisplay.load_menu`. -/
def DisplayState.loadMenu (d : DisplayState) (m : MenuL) : DisplayState :=
  { d with currentMenu := some m, scrollIndex := 0, cursorPosition := 0 }

/-- `DynamicMenu._refresh_current_menu` pokes the display directly:
`display.current_menu = menu; display.scroll_index = k` (cursor untouched). -/
def DisplayState.setMenuScroll (d : DisplayState) (m : MenuL) (k : ℕ) : DisplayState :=
  { d with currentMenu := some m, scrollIndex := k }

/-- States of the display reachable from power-on
(`scroll_index = 0, cursor_position = 0`) through the operations the
interface service performs. -/
inductive DReachable : DisplayState → Prop
  | init : DReachable ⟨none, 0, 0⟩
  | down {d} : DReachable d → DReachable d.moveCursorDown
  | up {d} : DReachable d → DReachable d.moveCursorUp
  | load {d} (m : MenuL) : DReachable d → DReachable (d.loadMenu m)
  | setMS {d} (m : MenuL) (k : ℕ) : DReachable d → DReachable (d.setMenuScroll m k)

/-! ## Refresh predicate (`DynamicMenu._should_refresh_item`) -/

/-- Value of an item's `refresh` key: a string policy or a numeric interval. -/
inductive RefreshVal where
  | strP (s : String)
  | numP (q : ℚ)
  deriving DecidableEq

/-- A menu-item configuration dict, with the keys `dynamic_menu.py` reads.
Absent keys are `none` (Python `dict.get` with a default at each use site). -/
structure ItemCfg where
  type_ : Option String := none
  text : Option String := none
  rightText : Option String := none
  function : Option String := none
  minV : Option ℤ := none
  maxV : Option ℤ := none
  submenu : Option String := none
  sensor : Option String := none
  group : Option String := none
  value : Option String := none
  refresh : Option RefreshVal := none
  alertType : Option String := none
  deriving DecidableEq

/-- `item.get("type", "static")`. -/
def ItemCfg.ty (it : ItemCfg) : String := it.type_.getD "static"

/-- `DynamicMenu._should_refresh_item`: `on_navigate` never refreshes on a
tick; a numeric interval refreshes when `now - last_refresh >= refresh`
(`last_refresh` defaults to `0`); anything else never refreshes. -/
def shouldRefreshItem (timers : String → Option ℚ) (now : ℚ) (it : ItemCfg) : Bool :=
  match it.refresh.getD (.strP "on_navigate") with
  | .strP s =>
      if s = "on_navigate" then false
      else false   -- falls through both `if`s and returns False
  | .numP q =>
      let funcName := it.function.getD ""
      let lastRefresh := (timers funcName).getD 0
      decide (now - lastRefresh ≥ q)

/-! ## DynamicMenu (src/interface-service/interface/dynamic_menu.py)

The interface service imports `utils.user_settings`, a module that is not
under src/ for the interface service; its limit-service twin
(src/limit-service/utils/user_settings.py) is, and is reused here, with
spec-modelled alert-hue accessors added. -/

/-- Python truthiness filter for an optional string (`if s:`). -/
def strTruthy : Option String → Option String
  | some "" => none
  | o => o

/-- Character-list prefix test (structural, so concrete cases evaluate). -/
def startsWithL : List Char → List Char → Bool
  | [], _ => true
  | _ :: _, [] => false
  | a :: as, b :: bs => a = b && startsWithL as bs

/-- Substring occurrence test on character lists. -/
def occursL (pat : List Char) : List Char → Bool
  | [] => decide (pat = [])
  | c :: rest => startsWithL pat (c :: rest) || occursL pat rest

/-- Python `sub in s`. -/
def pyIn (sub s : String) : Bool := occursL sub.data s.data

/-- Python `s.replace(pat, repl)`: replace every non-overlapping occurrence
left to right (fuel is the text length; with a non-empty pattern — true at
every call site — each step consumes at least one character). -/
def pyReplaceAux (pat repl : List Char) : ℕ → List Char → List Char
  | 0, l => l
  | _ + 1, [] => []
  | fuel + 1, c :: rest =>
      if startsWithL pat (c :: rest) then
        repl ++ pyReplaceAux pat repl fuel (List.drop pat.length (c :: rest))
      else c :: pyReplaceAux pat repl fuel rest

def pyReplace (s pat repl : String) : String :=
  if pat.data = [] then s
  else ⟨pyReplaceAux pat.data repl.data s.data.length s.data⟩

/-- Functional update of a dict modelled as `String → Option α`. -/
def dictSet (d : String → Option α) (k : String) (v : α) : String → Option α :=
  fun k' => if k' = k then some v else d k'

/-- Typed read of an integer setting (`get(key, default)`); brightness keys
are integer-valued by construction of their setters. -/
def UserSettings.getIntD (u : UserSettings) (key : String) (dflt : ℤ) : ℤ :=
  match u.store key with
  | some (.intV z) => z
  | _ => dflt

/-- Typed read of a string setting (`get(key, default)`), as used by the
checkbox formatter (`user_settings.get(group, "")`). -/
def UserSettings.getStrD (u : UserSettings) (key : String) (dflt : String) : String :=
  match u.store key with
  | some (.strV s) => s
  | _ => dflt

/-- Modelled from the spec: `get_alert_hue(alert_type)` of the
interface-service settings store (module absent from src/) — §6
SettingsStore `getFloat`, holding one hue per alert level. -/
def UserSettings.getAlertHue (u : UserSettings) (alertType : String) : ℚ :=
  match u.store ("alert_hue_" ++ alertType) with
  | some (.fltV q) => q
  | some (.intV z) => z
  | _ => 0

/-- Modelled from the spec: `set_alert_hue(alert_type, value)` — §6
SettingsStore `setFloat`, synchronously persisted. -/
def UserSettings.setAlertHue (u : UserSettings) (alertType : String) (v : ℚ) : UserSettings :=
  u.set ("alert_hue_" ++ alertType) (.fltV v)

/-- Result of `LimitServiceAPI.get_sensor_details` (a JSON dict); only the
two keys the controller reads, with their `dict.get` defaults. -/
structure SensorDetails where
  currentReading : ℚ
  measurementsPerSecond : ℚ
  deriving DecidableEq

/-- A menu definition: `{"items": [...]}`. -/
structure MenuCfg where
  items : List ItemCfg := []
  deriving DecidableEq

/-- `DynamicMenu` controller state (the fields the event handlers touch).
Dicts are modelled as functions into `Option`. -/
structure DMState where
  menuStack : List String
  currentMenuName : String
  editMode : Bool
  editValue : ℤ
  editValueFloat : ℚ
  editConfig : ItemCfg
  showingRainbow : Bool
  savedLedBrightness : Option ℤ
  lastActivity : ℚ
  displaySleeping : Bool
  bootScreenActive : Bool
  dynamicValues : String → Option String
  refreshTimers : String → Option ℚ
  sensorLimits : String → Option ℚ
  lastSensorList : List String
  editingSensor : Option String
  editingSensorLiveValue : ℚ
  editingSensorLastUpdate : ℚ
  sensorDetailsCache : String → Option SensorDetails
  scanningAps : Bool
  scannedAps : List (String × ℤ)
  setupModeStatus : Option Bool
  settings : UserSettings
  display : DisplayState

/-- The collaborators (display bus, LED strip, HTTP services, OS queries)
and the loaded menu definition.  A call that may raise is an
`Except PyErr` value.  `actionEffect`/`setterEffect` abstract the state
effects of registry functions other than the settings setters modelled
concretely below (they shell out or perform HTTP; no claim depends on
them). -/
structure Env where
  registry : String → Option (Except PyErr String)
  sensorsImpl : Except PyErr (List String)
  limitsImpl : Except PyErr (String → Option ℚ)
  sensorDetails : String → Option SensorDetails
  updateLimit : String → ℚ → Except PyErr Bool
  serviceStatus : String → Except PyErr String
  menus : String → Option MenuCfg
  hasLedController : Bool
  ledCurrentBrightness : ℤ
  actionEffect : String → DMState → DMState
  setterEffect : String → ℚ → DMState → DMState

/-- `DynamicMenu._get_dynamic_value`: look the function up in the registry;
a missing function yields `"Unknown"`, a call that raises is caught and
yields `"Error"`, otherwise the stringified result is returned (the
environment supplies results already stringified). -/
def getDynamicValue (env : Env) (name : String) : String :=
  match env.registry name with
  | some (.ok v) => v
  | some (.error _) => "Error"
  | none => "Unknown"

/-- `LimitServiceAPI.get_limits`: returns the parsed dict, or `{}` when the
request raises (`except Exception: return {}`). -/
def apiGetLimits (impl : Except PyErr (String → Option ℚ)) : String → Option ℚ :=
  match impl with
  | .ok d => d
  | .error _ => fun _ => none

/-- Modelled from the spec: `LimitServiceAPI.get_sensors`
(`listActiveSensors`) is called by `dynamic_menu.py` but absent from the
copy of `limit_service_api.py` under src/; §6 requires it to "degrade to
empty/zero on failure, never throw into the render path". -/
def apiGetSensors (impl : Except PyErr (List String)) : List String :=
  match impl with
  | .ok l => l
  | .error _ => []

/-- `LimitServiceAPI.update_limit`: `True` on HTTP 200, `False` when the
request raises. -/
def apiUpdateLimit (impl : Except PyErr Bool) : Bool :=
  match impl with
  | .ok b => b
  | .error _ => false

/-- Replacement of every `\x7b[^\x7d]+\x7d` token (body of
`re.sub(r"..", value, text)`): find a `\x7b`, a non-empty run of
non-`\x7d` characters, then `\x7d`; on a match emit the replacement and
continue after it. -/
def findCloseAux : List Char → Option (List Char)
  | [] => none
  | c :: rest => if c = Char.ofNat 125 then some rest else findCloseAux rest

def findClose : List Char → Option (List Char)
  | [] => none
  | c :: rest => if c = Char.ofNat 125 then none else findCloseAux rest

def replTokensAux (value : List Char) : ℕ → List Char → List Char
  | 0, l => l
  | _ + 1, [] => []
  | fuel + 1, c :: rest =>
      if c = Char.ofNat 123 then
        match findClose rest with
        | some rest' => value ++ replTokensAux value fuel rest'
        | none => c :: replTokensAux value fuel rest
      else c :: replTokensAux value fuel rest

/-- `re.sub(r"\x7b[^\x7d]+\x7d", value, text)` (fuel is the text length;
each step consumes at least one character, so it never runs out). -/
def replaceTokens (value text : String) : String :=
  ⟨replTokensAux value.data text.data.length text.data⟩

/-- `DynamicMenu._format_menu_text`. -/
def formatMenuText (env : Env) (s : DMState) (item : ItemCfg) : FmtItem :=
  let text := item.text.getD ""
  let ty := item.ty
  let text :=
    if ty = "dynamic" ∨ ty = "dynamic_submenu" then
      match strTruthy item.function with
      | some f => replaceTokens ((s.dynamicValues f).getD (getDynamicValue env f)) text
      | none => text
    else if ty = "checkbox" then
      match strTruthy item.group, strTruthy item.value with
      | some g, some v =>
          let current := s.settings.getStrD g ""
          let check := if current = v then "[x]" else "[ ]"
          pyReplace (pyReplace text "\x7borientation_left_check\x7d" check)
            "\x7borientation_right_check\x7d" check
      | _, _ => text
    else if ty = "editable" then
      if pyIn "display_brightness" text then
        let value := s.settings.getIntD "display_brightness" 180
        if s.editMode ∧ s.editConfig.function = item.function then
          pyReplace text "\x7bdisplay_brightness\x7d" ("[" ++ toString s.editValue ++ "]")
        else
          pyReplace text "\x7bdisplay_brightness\x7d" (toString value)
      else if pyIn "led_brightness" text then
        let value := s.settings.getIntD "led_brightness" 255
        if s.editMode ∧ s.editConfig.function = item.function then
          pyReplace text "\x7bled_brightness\x7d" ("[" ++ toString s.editValue ++ "]")
        else
          pyReplace text "\x7bled_brightness\x7d" (toString value)
      else text
    else if ty = "sensor_summary" then
      pyReplace text "\x7bsensor_count\x7d" (toString (apiGetSensors env.sensorsImpl).length)
    else text
  let rightText := item.rightText
  let rightText :=
    if ty = "dynamic" ∨ ty = "dynamic_submenu" then
      match strTruthy rightText, strTruthy item.function with
      | some rt, some f =>
          some (replaceTokens ((s.dynamicValues f).getD (getDynamicValue env f)) rt)
      | _, _ => rightText
    else rightText
  if ty = "submenu" ∨ ty = "dynamic_submenu" ∨ ty = "threshold_bar" ∨
      ty = "brightness_bar" ∨ ty = "hue_bar" ∨ ty = "editable" then
    { text := text, rightText := strTruthy rightText, submenu := true }
  else
    { text := text, rightText := strTruthy rightText, submenu := false }

/-- Lexicographic ascending insertion (Python `sorted` on strings). -/
def insertSorted (x : String) : List String → List String
  | [] => [x]
  | y :: ys => if x ≤ y then x :: y :: ys else y :: insertSorted x ys

def sortStrings (l : List String) : List String := l.foldr insertSorted []

/-- The synthesized per-sensor submenu row. -/
def sensorSubItem (name : String) : ItemCfg :=
  { type_ := some "submenu", text := some name, submenu := some ("sensor_" ++ name) }

/-- The `sensor_summary` expansion loop shared by `_refresh_current_menu`
and `button_pressed`: fetch active sensors and limits, update the caches,
raise the scroll-reset flag when the sensor list changed, and splice one
submenu row per active sensor (sorted) after the summary row. -/
def expandItems (env : Env) : DMState → Bool → List ItemCfg → List ItemCfg × DMState × Bool
  | s, reset, [] => ([], s, reset)
  | s, reset, item :: rest =>
      if item.ty = "sensor_summary" then
        let sensors := apiGetSensors env.sensorsImpl
        let s1 := { s with sensorLimits := apiGetLimits env.limitsImpl }
        let s2 := if sensors ≠ s1.lastSensorList then { s1 with lastSensorList := sensors } else s1
        let reset2 := if sensors ≠ s1.lastSensorList then true else reset
        let subs := (sortStrings sensors).map sensorSubItem
        let r := expandItems env s2 reset2 rest
        (item :: (subs ++ r.1), r.2.1, r.2.2)
      else
        let r := expandItems env s reset rest
        (item :: r.1, r.2.1, r.2.2)

/-- "Refresh dynamic items on navigate" loop of `_refresh_current_menu`:
recompute every dynamic item's value unconditionally and stamp its timer. -/
def refreshDynamicOnNavigate (env : Env) (now : ℚ) (s : DMState)
    (expanded : List ItemCfg) : DMState :=
  expanded.foldl
    (fun s item =>
      if item.ty = "dynamic" ∨ item.ty = "dynamic_submenu" then
        match strTruthy item.function with
        | some f =>
            { s with
              dynamicValues := dictSet s.dynamicValues f (getDynamicValue env f)
              refreshTimers := dictSet s.refreshTimers f now }
        | none => s
      else s)
    s

/-- `f"{q:.1f}"` at rational precision (1-decimal fixed format). -/
def fmt1 (q : ℚ) : String :=
  let n := pythonRound (q * 10)
  let a := n.natAbs
  let st := toString (a / 10) ++ "." ++ toString (a % 10)
  if n < 0 then "-" ++ st else st

/-- `DynamicMenu._create_sensor_menu_config` (uses the details cache; the
fetched limit is bound in the source but unused in the produced items). -/
def createSensorMenuConfig (s : DMState) (sensorName : String) : MenuCfg :=
  let details := (s.sensorDetailsCache sensorName).getD ⟨0, 0⟩
  { items :=
      [ { type_ := some "static", text := some sensorName }
      , { type_ := some "static",
          text := some ("Rate: " ++ fmt1 details.measurementsPerSecond ++ " mps") }
      , { type_ := some "threshold_bar", text := some "Threshold",
          sensor := some sensorName, minV := some 0, maxV := some 150 }
      , { type_ := some "back", text := some "Back" } ] }

/-- Signal-strength glyph of `_create_scan_aps_menu_config._signal_bars`. -/
def signalBars (signal : ℤ) : String :=
  if signal ≥ 75 then "||||"
  else if signal ≥ 50 then "|||"
  else if signal ≥ 25 then "||"
  else if signal > 0 then "|"
  else ""

/-- `DynamicMenu._create_scan_aps_menu_config`. -/
def createScanApsMenuConfig (s : DMState) : MenuCfg :=
  if s.scanningAps then
    { items :=
        [ { type_ := some "static", text := some "Scanning ..." }
        , { type_ := some "back", text := some "Back" } ] }
  else
    { items :=
        (s.scannedAps.map fun (ssid, signal) =>
          { type_ := some "static", text := some ssid,
            rightText := some (signalBars signal) }) ++
        [ { type_ := some "back", text := some "Back" } ] }

/-- The fixed service list of `_get_service_status_map`. -/
def servicesList : List (String × String) :=
  [ ("limit", "db-sentry-limit.service")
  , ("interface", "db-sentry-interface.service")
  , ("influxd", "influxd.service")
  , ("mosquitto", "mosquitto.service")
  , ("telegraf", "telegraf.service") ]

/-- Per-service status string: `[up]`/`[down]`/`[fail]`, the first four
characters of an unexpected status, `"?"` when empty or when the
`systemctl` call raises. -/
def svcStatusStr (r : Except PyErr String) : String :=
  match r with
  | .error _ => "?"
  | .ok status =>
      if status = "active" then "[up]"
      else if status = "inactive" then "[down]"
      else if status = "failed" then "[fail]"
      else if status = "" then "?"
      else status.take 4

/-- `DynamicMenu._create_services_menu_config`. -/
def createServicesMenuConfig (env : Env) : MenuCfg :=
  { items :=
      (servicesList.map fun (displayName, serviceName) =>
        { type_ := some "static", text := some displayName,
          rightText := some (svcStatusStr (env.serviceStatus serviceName)) }) ++
      [ { type_ := some "back", text := some "Back" } ] }

/-- `DynamicMenu._create_setup_mode_confirm_menu_config`. -/
def createSetupModeConfirmMenuConfig (s : DMState) : MenuCfg :=
  let status :=
    match s.setupModeStatus with
    | some b => some b
    | none =>
        match s.dynamicValues "get_setup_mode_status" with
        | some "on" => some true
        | some "off" => some false
        | _ => none
  let (prompt, actionFunc) :=
    if status = some true then ("Turn off setup mode?", "stop_setup_mode")
    else ("Turn on setup mode?", "start_setup_mode")
  { items :=
      [ { type_ := some "static", text := some prompt }
      , { type_ := some "back", text := some "[no]" }
      , { type_ := some "action", text := some "[yes]", function := some actionFunc } ] }

/-- `DynamicMenu._get_current_menu_config`. -/
def getCurrentMenuConfig (env : Env) (s : DMState) : MenuCfg :=
  if s.currentMenuName.startsWith "sensor_" then
    createSensorMenuConfig s (s.currentMenuName.drop 7)
  else if s.currentMenuName = "scan_aps" then createScanApsMenuConfig s
  else if s.currentMenuName = "services" then createServicesMenuConfig env
  else if s.currentMenuName = "setup_mode_confirm" then createSetupModeConfirmMenuConfig s
  else (env.menus s.currentMenuName).getD {}

/-- `DynamicMenu._refresh_current_menu` (lock acquisition is the serialized
entry point; device transfer leaves controller state unchanged). -/
def refreshCurrentMenu (env : Env) (now : ℚ) (preserve : Bool) (s : DMState) : DMState :=
  if s.displaySleeping then s
  else
    let items := (getCurrentMenuConfig env s).items
    let savedScroll := if preserve then s.display.scrollIndex else 0
    let savedScroll :=
      if s.currentMenuName = "main" ∧ preserve ∧
          items.any (fun it => it.ty = "sensor_summary") then 0
      else savedScroll
    let ex := expandItems env s false items
    let expanded := ex.1
    let savedScroll := if ex.2.2 then 0 else savedScroll
    let s2 := refreshDynamicOnNavigate env now ex.2.1 expanded
    let menu := MenuL.ofItems (expanded.map (formatMenuText env s2))
    { s2 with
      display :=
        { s2.display with
          currentMenu := some menu
          scrollIndex := if preserve then savedScroll else 0 } }

/-- `DynamicMenu._wake_display`. -/
def wakeDisplay (env : Env) (now : ℚ) (s : DMState) : DMState :=
  let s1 := { s with lastActivity := now }
  if s1.displaySleeping then
    refreshCurrentMenu env now false { s1 with displaySleeping := false }
  else s1

/-- `DynamicMenu._check_sleep` (the scheduler tick's inactivity check;
`INACTIVITY_TIMEOUT = 60`). -/
def checkSleep (now : ℚ) (s : DMState) : DMState :=
  if now - s.lastActivity > 60 ∧ ¬s.displaySleeping then
    { s with displaySleeping := true }
  else s

/-- `DynamicMenu.move_cursor_down`. -/
def dmMoveCursorDown (env : Env) (now : ℚ) (s : DMState) : DMState :=
  let s1 := wakeDisplay env now s
  if s1.bootScreenActive ∨ s1.editMode then s1
  else { s1 with display := s1.display.moveCursorDown }

/-- `DynamicMenu.move_cursor_up`. -/
def dmMoveCursorUp (env : Env) (now : ℚ) (s : DMState) : DMState :=
  let s1 := wakeDisplay env now s
  if s1.bootScreenActive ∨ s1.editMode then s1
  else { s1 with display := s1.display.moveCursorUp }

/-- `DynamicMenu._render_threshold_bar`'s state effect: at most once per
second, refetch the edited sensor's live reading into the state (drawing
itself is device-level). -/
def renderThresholdBarState (env : Env) (now : ℚ) (s : DMState) : DMState :=
  if now - s.editingSensorLastUpdate ≥ 1 then
    match strTruthy s.editingSensor with
    | some sensor =>
        let s :=
          match env.sensorDetails sensor with
          | some det =>
              { s with
                editingSensorLiveValue := det.currentReading
                sensorDetailsCache := dictSet s.sensorDetailsCache sensor det }
          | none => s
        { s with editingSensorLastUpdate := now }
    | none => s
  else s

/-- `DynamicMenu.encoder_rotated`. -/
def encoderRotated (env : Env) (now : ℚ) (delta : ℤ) (s : DMState) : DMState :=
  let s1 := wakeDisplay env now s
  if s1.bootScreenActive then s1
  else if s1.editMode then
    if s1.editConfig.ty = "brightness_bar" then
      let minVal := s1.editConfig.minV.getD 0
      let maxVal := s1.editConfig.maxV.getD 255
      let step : ℚ := ((maxVal : ℚ) - (minVal : ℚ)) / 110
      let v : ℚ := (s1.editValue : ℚ) + (if delta < 0 then step else -step)
      let v := clampQ (minVal : ℚ) (maxVal : ℚ) v
      { s1 with editValue := pythonRound v }
    else if s1.editConfig.ty = "hue_bar" then
      let step : ℚ := 1 / 110
      let f := s1.editValueFloat + (if delta < 0 then step else -step)
      { s1 with editValueFloat := clampQ 0 1 f }
    else if s1.editConfig.ty = "threshold_bar" then
      let minVal := s1.editConfig.minV.getD 0
      let maxVal := s1.editConfig.maxV.getD 150
      let step : ℚ := ((maxVal : ℚ) - (minVal : ℚ)) / 110
      let v : ℚ := (s1.editValue : ℚ) + (if delta < 0 then step else -step)
      let v := clampQ (minVal : ℚ) (maxVal : ℚ) v
      renderThresholdBarState env now { s1 with editValue := pythonRound v }
    else
      let step : ℤ := if delta.natAbs = 1 then 1 else 5
      let v := s1.editValue + (if delta < 0 then step else -step)
      let v := clampZ (s1.editConfig.minV.getD 0) (s1.editConfig.maxV.getD 255) v
      refreshCurrentMenu env now false { s1 with editValue := v }
  else if delta > 0 then dmMoveCursorUp env now s1
  else dmMoveCursorDown env now s1

/-- State effect of the zero-argument registry functions dispatched by
checkbox/action items: the orientation setters write the settings store
(and rotate the device); the remaining functions act on collaborators and
are abstracted into the environment. -/
def applyAction (env : Env) (name : String) (s : DMState) : DMState :=
  if name = "set_orientation_left" then
    { s with settings := s.settings.set "orientation" (.strV "left") }
  else if name = "set_orientation_right" then
    { s with settings := s.settings.set "orientation" (.strV "right") }
  else env.actionEffect name s

/-- State effect of the integer-valued registry setters used by
`_save_edit_value` (brightness setters clamp via `UserSettings`); other
names are abstracted into the environment. -/
def applySetterInt (env : Env) (name : String) (v : ℤ) (s : DMState) : DMState :=
  if name = "set_display_brightness" then
    { s with settings := s.settings.setDisplayBrightness v }
  else if name = "set_led_brightness" then
    { s with settings := s.settings.setLedBrightness v }
  else env.setterEffect name (v : ℚ) s

/-- State effect of the float-valued registry setters (alert hues). -/
def applySetterFloat (env : Env) (name : String) (v : ℚ) (s : DMState) : DMState :=
  if name = "set_alert_hue_normal" then { s with settings := s.settings.setAlertHue "normal" v }
  else if name = "set_alert_hue_warn" then { s with settings := s.settings.setAlertHue "warn" v }
  else if name = "set_alert_hue_alert" then { s with settings := s.settings.setAlertHue "alert" v }
  else env.setterEffect name v s

/-- `DynamicMenu._save_edit_value`. -/
def saveEditValue (env : Env) (s : DMState) : DMState :=
  let s1 :=
    if s.editConfig.ty = "hue_bar" then
      match strTruthy s.editConfig.function with
      | some f =>
          if (env.registry f).isSome then applySetterFloat env f s.editValueFloat s else s
      | none => s
    else if s.editConfig.ty = "threshold_bar" then
      let s' :=
        match strTruthy s.editingSensor with
        | some sensor =>
            if apiUpdateLimit (env.updateLimit sensor (s.editValue : ℚ)) then
              { s with sensorLimits := dictSet s.sensorLimits sensor (s.editValue : ℚ) }
            else s
        | none => s
      { s' with editingSensor := none }
    else
      match strTruthy s.editConfig.function with
      | some f =>
          if (env.registry f).isSome then applySetterInt env f s.editValue s else s
      | none => s
  if s1.showingRainbow ∧ env.hasLedController then
    { s1 with showingRainbow := false, savedLedBrightness := none }
  else s1

/-- `DynamicMenu._navigate_to`: push the menu name, reset scroll, cache
sensor details when entering a sensor view, flag an async AP scan when
entering `scan_aps` (the detached scan worker itself is concurrency and
is not modelled), then re-render. -/
def navigateTo (env : Env) (now : ℚ) (menuName : String) (s : DMState) : DMState :=
  let s := { s with
    menuStack := s.menuStack ++ [menuName]
    currentMenuName := menuName
    display := { s.display with scrollIndex := 0 } }
  let s :=
    if menuName.startsWith "sensor_" then
      match env.sensorDetails (menuName.drop 7) with
      | some det =>
          { s with sensorDetailsCache := dictSet s.sensorDetailsCache (menuName.drop 7) det }
      | none => s
    else s
  if menuName = "scan_aps" then
    refreshCurrentMenu env now false { s with scanningAps := true, scannedAps := [] }
  else refreshCurrentMenu env now false s

/-- `DynamicMenu._navigate_back`: pop unless at the stack bottom. -/
def navigateBack (env : Env) (now : ℚ) (s : DMState) : DMState :=
  if s.menuStack.length > 1 then
    let stack := s.menuStack.dropLast
    refreshCurrentMenu env now false
      { s with
        menuStack := stack
        currentMenuName := stack.getLastD ""
        display := { s.display with scrollIndex := 0 } }
  else s

/-- `DynamicMenu._handle_checkbox`. -/
def handleCheckbox (env : Env) (now : ℚ) (item : ItemCfg) (s : DMState) : DMState :=
  match strTruthy item.function with
  | some f =>
      if (env.registry f).isSome then refreshCurrentMenu env now false (applyAction env f s)
      else s
  | none => s

/-- `DynamicMenu._handle_action`. -/
def handleAction (env : Env) (item : ItemCfg) (s : DMState) : DMState :=
  match strTruthy item.function with
  | some f => if (env.registry f).isSome then applyAction env f s else s
  | none => s

/-- `DynamicMenu._enter_edit_mode`: seed from the persisted setting named
in the function (raw, unclamped), or the item's `min` default; the
no-function path returns before re-rendering. -/
def enterEditMode (env : Env) (now : ℚ) (item : ItemCfg) (s : DMState) : DMState :=
  let s := { s with editMode := true, editConfig := item }
  match strTruthy item.function with
  | none => { s with editValue := item.minV.getD 0 }
  | some f =>
      let s :=
        if pyIn "display_brightness" f then
          { s with editValue := s.settings.getIntD "display_brightness" 180 }
        else if pyIn "led_brightness" f then
          { s with editValue := s.settings.getIntD "led_brightness" 255 }
        else { s with editValue := item.minV.getD 0 }
      refreshCurrentMenu env now false s

/-- `DynamicMenu._enter_brightness_bar_mode`: seed from the persisted
setting (raw, unclamped); the LED-brightness variant additionally saves
the LED state and shows the rainbow preview. -/
def enterBrightnessBarMode (env : Env) (item : ItemCfg) (s : DMState) : DMState :=
  let s := { s with editMode := true, editConfig := item }
  let f := item.function.getD ""
  if pyIn "display_brightness" f then
    { s with editValue := s.settings.getIntD "display_brightness" 180 }
  else if pyIn "led_brightness" f then
    let s := { s with editValue := s.settings.getIntD "led_brightness" 255 }
    if env.hasLedController then
      { s with savedLedBrightness := some env.ledCurrentBrightness, showingRainbow := true }
    else s
  else { s with editValue := item.minV.getD 0 }

/-- `DynamicMenu._enter_hue_bar_mode` (IPC pause and LED preview are
collaborator effects). -/
def enterHueBarMode (item : ItemCfg) (s : DMState) : DMState :=
  let s := { s with editMode := true, editConfig := item }
  { s with editValueFloat := s.settings.getAlertHue (item.alertType.getD "normal") }

/-- `DynamicMenu._enter_threshold_bar_mode`: seed from the cached limit
(`int(...)`-truncated, unclamped), fetch an initial live reading, then
render. -/
def enterThresholdBarMode (env : Env) (now : ℚ) (item : ItemCfg) (s : DMState) : DMState :=
  let s := { s with editMode := true, editConfig := item, editingSensor := item.sensor }
  match strTruthy item.sensor with
  | some sensor =>
      let s := { s with editValue := pyInt ((s.sensorLimits sensor).getD 0) }
      let s :=
        match env.sensorDetails sensor with
        | some det => { s with editingSensorLiveValue := det.currentReading }
        | none => { s with editingSensorLiveValue := 0 }
      renderThresholdBarState env now { s with editingSensorLastUpdate := now }
  | none =>
      renderThresholdBarState env now
        { s with editValue := 0, editingSensorLiveValue := 0, editingSensorLastUpdate := 0 }

/-- Item dispatch at the tail of `DynamicMenu.button_pressed`. -/
def buttonDispatch (env : Env) (now : ℚ) (item : ItemCfg) (s : DMState) : DMState :=
  if item.ty = "back" then navigateBack env now s
  else if item.ty = "submenu" ∨ item.ty = "dynamic_submenu" then
    match strTruthy item.submenu with
    | some n => navigateTo env now n s
    | none => s
  else if item.ty = "checkbox" then handleCheckbox env now item s
  else if item.ty = "editable" then enterEditMode env now item s
  else if item.ty = "brightness_bar" then enterBrightnessBarMode env item s
  else if item.ty = "hue_bar" then enterHueBarMode item s
  else if item.ty = "threshold_bar" then enterThresholdBarMode env now item s
  else if item.ty = "action" then handleAction env item s
  else s

/-- `DynamicMenu.button_pressed`. -/
def buttonPressed (env : Env) (now : ℚ) (s : DMState) : DMState :=
  let wasSleeping := s.displaySleeping
  let s1 := wakeDisplay env now s
  if wasSleeping then s1
  else if s1.displaySleeping ∨ s1.bootScreenActive then s1
  else if s1.editMode then
    refreshCurrentMenu env now false { saveEditValue env s1 with editMode := false }
  else
    let ex := expandItems env s1 false (getCurrentMenuConfig env s1).items
    let expanded := ex.1
    let s2 := ex.2.1
    let idx := s2.display.getSelectedItemIndex
    if h : idx < expanded.length then
      buttonDispatch env now (expanded.get ⟨idx, h⟩) s2
    else s2

/-! ## Spec-side definitions, fixtures and invariants used by the claim theorems -/

def tickTimers9 : String → Option ℚ := fun k => if k = "f" then some 10 else none

def tickItem9 : ItemCfg := { function := some "f", refresh := some (.numP 5) }

def frameItems2 : List FmtItem :=
  [ { text := "A", rightText := none, submenu := false }
  , { text := "B", rightText := some "[up]", submenu := true } ]

/-- A well-matched sequence of navigation events: `nil` is empty,
`pair n inner rest` is `NavigateTo n`, then `inner`, then the matching
`NavigateBack`, then `rest`. -/
inductive NavSeq where
  | nil : NavSeq
  | pair (name : String) (inner rest : NavSeq) : NavSeq

def runNavSeq (env : Env) (now : ℚ) : NavSeq → DMState → DMState
  | .nil, s => s
  | .pair n inner rest, s =>
      runNavSeq env now rest
        (navigateBack env now (runNavSeq env now inner (navigateTo env now n s)))

def env0 : Env :=
  { registry := fun _ => none
    sensorsImpl := .error "down"
    limitsImpl := .error "down"
    sensorDetails := fun _ => none
    updateLimit := fun _ _ => .error "down"
    serviceStatus := fun _ => .error "down"
    menus := fun _ => none
    hasLedController := false
    ledCurrentBrightness := 0
    actionEffect := fun _ s => s
    setterEffect := fun _ _ s => s }

def s0 : DMState :=
  { menuStack := ["main"]
    currentMenuName := "main"
    editMode := false
    editValue := 0
    editValueFloat := 0
    editConfig := {}
    showingRainbow := false
    savedLedBrightness := none
    lastActivity := 0
    displaySleeping := false
    bootScreenActive := false
    dynamicValues := fun _ => none
    refreshTimers := fun _ => none
    sensorLimits := fun _ => none
    lastSensorList := []
    editingSensor := none
    editingSensorLiveValue := 0
    editingSensorLastUpdate := 0
    sensorDetailsCache := fun _ => none
    scanningAps := false
    scannedAps := []
    setupModeStatus := none
    settings := ⟨fun _ => none⟩
    display := ⟨none, 0, 0⟩ }

/-- The `[min,max]` interval each `encoder_rotated` branch clamps to
(`dict.get` defaults per branch; the default `max` is `255` except for the
threshold bar's `150`). -/
def effBounds (cfg : ItemCfg) : ℤ × ℤ :=
  if cfg.ty = "brightness_bar" then (cfg.minV.getD 0, cfg.maxV.getD 255)
  else if cfg.ty = "threshold_bar" then (cfg.minV.getD 0, cfg.maxV.getD 150)
  else (cfg.minV.getD 0, cfg.maxV.getD 255)

/-- The edit-session invariant: the integer value within its branch's
bounds, the hue value within `[0,1]`. -/
def EditInv (s : DMState) : Prop :=
  (effBounds s.editConfig).1 ≤ s.editValue ∧ s.editValue ≤ (effBounds s.editConfig).2 ∧
  0 ≤ s.editValueFloat ∧ s.editValueFloat ≤ 1

/-- One rotation event's effect on `(edit_value, edit_value_float)`, per
sub-state: bar types add the signed quantized step `(max-min)/110`, clamp,
then round; the hue bar adds `1/110` and clamps to `[0,1]`; SimpleValue
adds `±1` (single detent) or `±5`, clamping.  A negative delta increases
the value. -/
def specEditStep (cfg : ItemCfg) (p : ℤ × ℚ) (delta : ℤ) : ℤ × ℚ :=
  if cfg.ty = "brightness_bar" then
    let lo := cfg.minV.getD 0
    let hi := cfg.maxV.getD 255
    let step : ℚ := ((hi : ℚ) - (lo : ℚ)) / 110
    (pythonRound (clampQ (lo : ℚ) (hi : ℚ) ((p.1 : ℚ) + (if delta < 0 then step else -step))),
      p.2)
  else if cfg.ty = "hue_bar" then
    (p.1, clampQ 0 1 (p.2 + (if delta < 0 then (1 : ℚ) / 110 else -(1 / 110))))
  else if cfg.ty = "threshold_bar" then
    let lo := cfg.minV.getD 0
    let hi := cfg.maxV.getD 150
    let step : ℚ := ((hi : ℚ) - (lo : ℚ)) / 110
    (pythonRound (clampQ (lo : ℚ) (hi : ℚ) ((p.1 : ℚ) + (if delta < 0 then step else -step))),
      p.2)
  else
    let step : ℤ := if delta.natAbs = 1 then 1 else 5
    (clampZ (cfg.minV.getD 0) (cfg.maxV.getD 255) (p.1 + (if delta < 0 then step else -step)),
      p.2)

def editItemB : ItemCfg :=
  { type_ := some "brightness_bar", text := some "Brightness",
    function := some "set_display_brightness", minV := some 0, maxV := some 255 }

def sEditB : DMState := { s0 with editMode := true, editConfig := editItemB }

def thresholdItemC6 : ItemCfg :=
  { type_ := some "threshold_bar", text := some "Threshold",
    sensor := some "mic", minV := some 0, maxV := some 150 }


def sLimits200 : DMState :=
  { s0 with sensorLimits := fun k => if k = "mic" then some 200 else none }


def menuCfg2 : MenuCfg :=
  ⟨[{ type_ := some "static", text := some "A" }, { type_ := some "static", text := some "B" }]⟩


def envMain2 : Env := { env0 with menus := fun n => if n = "main" then some menuCfg2 else none }


def sSleep : DMState := { s0 with displaySleeping := true }


def dynItemFail : ItemCfg :=
  { type_ := some "dynamic", text := some "\x7bv\x7d",
    function := some "get_wifi_ssid", refresh := some (.numP 2) }


def sumItemFail : ItemCfg :=
  { type_ := some "sensor_summary", text := some "Sensors: \x7bsensor_count\x7d" }


def envFail : Env :=
  { registry := fun _ => some (.error "boom")
    sensorsImpl := .error "down"
    limitsImpl := .error "down"
    sensorDetails := fun _ => none
    updateLimit := fun _ _ => .error "down"
    serviceStatus := fun _ => .error "down"
    menus := fun n => if n = "main" then some ⟨[dynItemFail, sumItemFail]⟩ else none
    hasLedController := false
    ledCurrentBrightness := 0
    actionEffect := fun _ s => s
    setterEffect := fun _ _ s => s }


/-! ## Preservation lemmas shared by the claim proofs -/

/-- The controller fields a re-render leaves untouched. -/
def CorePreserved (s t : DMState) : Prop :=
  t.menuStack = s.menuStack ∧ t.currentMenuName = s.currentMenuName ∧
  t.editMode = s.editMode ∧ t.editValue = s.editValue ∧
  t.editValueFloat = s.editValueFloat ∧ t.editConfig = s.editConfig ∧
  t.bootScreenActive = s.bootScreenActive ∧ t.settings = s.settings ∧
  t.displaySleeping = s.displaySleeping

theorem CorePreserved.refl (s : DMState) : CorePreserved s s :=
  ⟨rfl, rfl, rfl, rfl, rfl, rfl, rfl, rfl, rfl⟩

theorem CorePreserved.trans {s t u : DMState}
    (h1 : CorePreserved s t) (h2 : CorePreserved t u) : CorePreserved s u := by
  obtain ⟨a1, a2, a3, a4, a5, a6, a7, a8, a9⟩ := h1
  obtain ⟨b1, b2, b3, b4, b5, b6, b7, b8, b9⟩ := h2
  exact ⟨b1.trans a1, b2.trans a2, b3.trans a3, b4.trans a4, b5.trans a5,
    b6.trans a6, b7.trans a7, b8.trans a8, b9.trans a9⟩

theorem expandItems_core (env : Env) :
    ∀ (l : List ItemCfg) (s : DMState) (r : Bool),
      CorePreserved s (expandItems env s r l).2.1 := by
  intro l
  induction l with
  | nil => intro s r; exact CorePreserved.refl s
  | cons item rest ih =>
      intro s r
      by_cases hty : item.ty = "sensor_summary"
      · simp only [expandItems, if_pos hty]
        refine CorePreserved.trans ?_ (ih _ _)
        dsimp only
        split
        · exact ⟨rfl, rfl, rfl, rfl, rfl, rfl, rfl, rfl, rfl⟩
        · exact ⟨rfl, rfl, rfl, rfl, rfl, rfl, rfl, rfl, rfl⟩
      · simp only [expandItems, if_neg hty]
        exact ih _ _

theorem refreshDynamicOnNavigate_core (env : Env) (now : ℚ) :
    ∀ (l : List ItemCfg) (s : DMState),
      CorePreserved s (refreshDynamicOnNavigate env now s l) := by
  intro l
  induction l with
  | nil => intro s; exact CorePreserved.refl s
  | cons item rest ih =>
      intro s
      simp only [refreshDynamicOnNavigate, List.foldl_cons]
      refine CorePreserved.trans ?_ (ih _)
      dsimp only
      split
      · split
        · exact ⟨rfl, rfl, rfl, rfl, rfl, rfl, rfl, rfl, rfl⟩
        · exact CorePreserved.refl s
      · exact CorePreserved.refl s

theorem refreshCurrentMenu_core (env : Env) (now : ℚ) (p : Bool) (s : DMState) :
    CorePreserved s (refreshCurrentMenu env now p s) := by
  unfold refreshCurrentMenu
  split
  · exact CorePreserved.refl s
  · unfold CorePreserved
    have h1 := expandItems_core env (getCurrentMenuConfig env s).items s false
    have h2 := refreshDynamicOnNavigate_core env now
      (expandItems env s false (getCurrentMenuConfig env s).items).1
      (expandItems env s false (getCurrentMenuConfig env s).items).2.1
    obtain ⟨a1, a2, a3, a4, a5, a6, a7, a8, a9⟩ := CorePreserved.trans h1 h2
    dsimp only
    exact ⟨a1, a2, a3, a4, a5, a6, a7, a8, a9⟩

/-- `_wake_display` changes only `last_activity`, the sleep flag, and
(through the nested re-render) the render caches and display. -/
theorem wakeDisplay_edit (env : Env) (now : ℚ) (s : DMState) :
    (wakeDisplay env now s).menuStack = s.menuStack ∧
    (wakeDisplay env now s).currentMenuName = s.currentMenuName ∧
    (wakeDisplay env now s).editMode = s.editMode ∧
    (wakeDisplay env now s).editValue = s.editValue ∧
    (wakeDisplay env now s).editValueFloat = s.editValueFloat ∧
    (wakeDisplay env now s).editConfig = s.editConfig ∧
    (wakeDisplay env now s).bootScreenActive = s.bootScreenActive ∧
    (wakeDisplay env now s).settings = s.settings := by
  unfold wakeDisplay
  dsimp only
  split
  · have h := refreshCurrentMenu_core env now false
      { s with lastActivity := now, displaySleeping := false }
    obtain ⟨a1, a2, a3, a4, a5, a6, a7, a8, _⟩ := h
    exact ⟨a1, a2, a3, a4, a5, a6, a7, a8⟩
  · exact ⟨rfl, rfl, rfl, rfl, rfl, rfl, rfl, rfl⟩

theorem renderThresholdBarState_edit (env : Env) (now : ℚ) (s : DMState) :
    (renderThresholdBarState env now s).menuStack = s.menuStack ∧
    (renderThresholdBarState env now s).editMode = s.editMode ∧
    (renderThresholdBarState env now s).editValue = s.editValue ∧
    (renderThresholdBarState env now s).editValueFloat = s.editValueFloat ∧
    (renderThresholdBarState env now s).editConfig = s.editConfig ∧
    (renderThresholdBarState env now s).bootScreenActive = s.bootScreenActive := by
  unfold renderThresholdBarState
  dsimp only
  split
  · split
    · split <;> exact ⟨rfl, rfl, rfl, rfl, rfl, rfl⟩
    · exact ⟨rfl, rfl, rfl, rfl, rfl, rfl⟩
  · exact ⟨rfl, rfl, rfl, rfl, rfl, rfl⟩

/-- C10 -/
theorem brightness_setters_clamp (u : UserSettings) (v : ℤ) :
    ((u.setDisplayBrightness v).getDisplayBrightness = .intV (max 0 (min 255 v)) ∧
      0 ≤ max 0 (min 255 v) ∧ max 0 (min 255 v) ≤ 255) ∧
    ((u.setLedBrightness v).getLedBrightness = .intV (max 0 (min 255 v)) ∧
      0 ≤ max 0 (min 255 v) ∧ max 0 (min 255 v) ≤ 255) := by
  constructor <;> refine ⟨rfl, ?_, ?_⟩ <;> omega

/-- C9 -/
theorem refresh_tick_predicate (timers : String → Option ℚ) (now : ℚ) (it : ItemCfg) :
    ((it.refresh = none ∨ it.refresh = some (.strP "on_navigate")) →
        shouldRefreshItem timers now it = false) ∧
    (∀ i : ℚ, it.refresh = some (.numP i) →
        (shouldRefreshItem timers now it = true ↔
          now - ((timers (it.function.getD "")).getD 0) ≥ i)) := by
  constructor
  · rintro (h | h) <;> simp [shouldRefreshItem, h]
  · intro i h
    simp [shouldRefreshItem, h]

/-- C9 witness -/
theorem refresh_tick_predicate_witness :
    shouldRefreshItem tickTimers9 12 tickItem9 = false ∧
    shouldRefreshItem tickTimers9 16 tickItem9 = true := by
  constructor
  · have h := (refresh_tick_predicate tickTimers9 12 tickItem9).2 5 rfl
    cases hb : shouldRefreshItem tickTimers9 12 tickItem9
    · rfl
    · exact absurd (h.mp hb) (by norm_num [tickTimers9, tickItem9])
  · exact ((refresh_tick_predicate tickTimers9 16 tickItem9).2 5 rfl).mpr
      (by norm_num [tickTimers9, tickItem9])

/-- C2 -/
theorem frame_cache_offsets_and_clamp (items : List FmtItem) (N : ℕ)
    (hN : 1 ≤ N) (hlen : items.length = N) :
    (∀ i : ℕ, ((MenuL.ofItems items).frameCache i).isSome = true ↔ i < N) ∧
    (∀ k : ℤ,
      (MenuL.ofItems items).getFrame k =
        (MenuL.ofItems items).frameCache (max 0 (min k ((N : ℤ) - 1))).toNat ∧
      (MenuL.ofItems items).getFrame k =
        (MenuL.ofItems items).getFrame (max 0 (min k ((N : ℤ) - 1))) ∧
      (((MenuL.ofItems items).getFrame k).isSome = true)) := by
  have hlen2 : (MenuL.ofItems items).len = N + 2 := by
    simp [MenuL.ofItems, MenuL.len, hlen]
  have hcache : ∀ i : ℕ, (MenuL.ofItems items).frameCache i =
      if i < N then some ((MenuL.ofItems items).renderFrame i) else none := by
    intro i
    simp [MenuL.frameCache, hlen2]
  have hget : ∀ k : ℤ, (MenuL.ofItems items).getFrame k =
      (MenuL.ofItems items).frameCache (max 0 (min k ((N : ℤ) - 1))).toNat := by
    intro k
    have hmi : ((MenuL.ofItems items).len : ℤ) - 3 = (N : ℤ) - 1 := by
      rw [hlen2]; push_cast; ring
    have hnonneg : ¬ ((N : ℤ) - 1 < 0) := by omega
    simp only [MenuL.getFrame, hmi, if_neg hnonneg]
  refine ⟨?_, ?_⟩
  · intro i
    rw [hcache i]
    constructor
    · intro h
      by_contra hc
      rw [if_neg hc] at h
      simp at h
    · intro h
      rw [if_pos h]
      rfl
  · intro k
    have hclamp : max 0 (min (max 0 (min k ((N : ℤ) - 1))) ((N : ℤ) - 1)) =
        max 0 (min k ((N : ℤ) - 1)) := by omega
    refine ⟨hget k, ?_, ?_⟩
    · rw [hget k, hget (max 0 (min k ((N : ℤ) - 1))), hclamp]
    · rw [hget k, hcache]
      have h0 : (0 : ℤ) ≤ max 0 (min k ((N : ℤ) - 1)) := le_max_left _ _
      have h1 : max 0 (min k ((N : ℤ) - 1)) ≤ (N : ℤ) - 1 := by omega
      have : (max 0 (min k ((N : ℤ) - 1))).toNat < N := by omega
      rw [if_pos this]
      rfl

/-- C2 witness -/
theorem frame_cache_offsets_and_clamp_witness :
    ((MenuL.ofItems frameItems2).getFrame 99).isSome = true :=
  (((frame_cache_offsets_and_clamp frameItems2 2 (by decide) (by decide)).2) 99).2.2



theorem refreshCurrentMenu_menuStack (env : Env) (now : ℚ) (p : Bool) (s : DMState) :
    (refreshCurrentMenu env now p s).menuStack = s.menuStack :=
  (refreshCurrentMenu_core env now p s).1

theorem navigateTo_stack (env : Env) (now : ℚ) (n : String) (s : DMState) :
    (navigateTo env now n s).menuStack = s.menuStack ++ [n] := by
  unfold navigateTo
  dsimp only
  split
  · rw [refreshCurrentMenu_menuStack]
    dsimp only
    split
    · split <;> rfl
    · rfl
  · rw [refreshCurrentMenu_menuStack]
    split
    · split <;> rfl
    · rfl

theorem navigateBack_stack_pop (env : Env) (now : ℚ) (s : DMState)
    (h : 1 < s.menuStack.length) :
    (navigateBack env now s).menuStack = s.menuStack.dropLast := by
  unfold navigateBack
  rw [if_pos h, refreshCurrentMenu_menuStack]

theorem navigateBack_noop (env : Env) (now : ℚ) (s : DMState)
    (h : ¬ 1 < s.menuStack.length) : navigateBack env now s = s := by
  unfold navigateBack
  rw [if_neg h]

/-- C8 -/
theorem nav_stack_balanced (env : Env) (now : ℚ) :
    (∀ (b : NavSeq) (s : DMState), s.menuStack ≠ [] →
        (runNavSeq env now b s).menuStack = s.menuStack) ∧
    (∀ (n : String) (s : DMState),
        (navigateTo env now n s).menuStack = s.menuStack ++ [n]) ∧
    (∀ s : DMState, 1 < s.menuStack.length →
        (navigateBack env now s).menuStack = s.menuStack.dropLast) ∧
    (∀ s : DMState, s.menuStack.length = 1 → navigateBack env now s = s) := by
  refine ⟨?_, fun n s => navigateTo_stack env now n s,
    fun s h => navigateBack_stack_pop env now s h,
    fun s h => navigateBack_noop env now s (by omega)⟩
  intro b
  induction b with
  | nil => intro s h; rfl
  | pair n inner rest ih_inner ih_rest =>
      intro s h
      have h1 := navigateTo_stack env now n s
      have hne : (navigateTo env now n s).menuStack ≠ [] := by
        rw [h1]; simp
      have h2 : (runNavSeq env now inner (navigateTo env now n s)).menuStack =
          s.menuStack ++ [n] := by rw [ih_inner _ hne, h1]
      have hlen : 1 < (runNavSeq env now inner (navigateTo env now n s)).menuStack.length := by
        rw [h2]
        simp only [List.length_append, List.length_cons, List.length_nil]
        have : s.menuStack.length ≠ 0 := by
          intro hc
          exact h (List.length_eq_zero.mp hc)
        omega
      have h3 := navigateBack_stack_pop env now _ hlen
      rw [h2] at h3
      have h4 : (s.menuStack ++ [n]).dropLast = s.menuStack := by
        simp
      unfold runNavSeq
      rw [ih_rest _ (by rw [h3, h4]; exact h), h3, h4]

/-- C8 witness -/
theorem nav_stack_balanced_witness :
    (runNavSeq env0 0 (.pair "settings" .nil .nil) s0).menuStack = s0.menuStack ∧
    navigateBack env0 0 s0 = s0 := by
  constructor
  · exact (nav_stack_balanced env0 0).1 (.pair "settings" .nil .nil) s0 (by decide)
  · exact (nav_stack_balanced env0 0).2.2.2 s0 (by decide)

/-- C5 counterexample -/
theorem selection_counterexample :
    DReachable ((⟨none, 0, 0⟩ : DisplayState).loadMenu (MenuL.ofItems frameItems2)).moveCursorDown ∧
    ¬ (((⟨none, 0, 0⟩ : DisplayState).loadMenu
          (MenuL.ofItems frameItems2)).moveCursorDown.getSelectedItemIndex =
        ((⟨none, 0, 0⟩ : DisplayState).loadMenu
          (MenuL.ofItems frameItems2)).moveCursorDown.scrollIndex) := by
  constructor
  · exact DReachable.down (DReachable.load _ DReachable.init)
  · decide

/-- C5 amended -/
theorem selection_is_scroll_plus_cursor :
    ∀ d : DisplayState, DReachable d →
      d.cursorPosition ≤ 1 ∧ d.getSelectedItemIndex = d.scrollIndex + d.cursorPosition := by
  intro d h
  induction h with
  | init => exact ⟨Nat.zero_le 1, rfl⟩
  | @down d h ih =>
      refine ⟨?_, rfl⟩
      obtain ⟨hc, _⟩ := ih
      unfold DisplayState.moveCursorDown
      cases hm : d.currentMenu with
      | none => exact hc
      | some m =>
          dsimp only
          split
          · exact Nat.le_refl 1
          · split
            · exact hc
            · exact hc
  | @up d h ih =>
      refine ⟨?_, rfl⟩
      obtain ⟨hc, _⟩ := ih
      unfold DisplayState.moveCursorUp
      cases hm : d.currentMenu with
      | none => exact hc
      | some m =>
          dsimp only
          split
          · exact Nat.zero_le 1
          · split
            · exact hc
            · exact hc
  | load m h ih => exact ⟨Nat.zero_le 1, rfl⟩
  | setMS m k h ih => exact ⟨ih.1, rfl⟩

/-- C5 amended witness -/
theorem selection_is_scroll_plus_cursor_witness :
    (⟨none, 0, 0⟩ : DisplayState).cursorPosition ≤ 1 ∧
    (⟨none, 0, 0⟩ : DisplayState).getSelectedItemIndex =
      (⟨none, 0, 0⟩ : DisplayState).scrollIndex + (⟨none, 0, 0⟩ : DisplayState).cursorPosition :=
  selection_is_scroll_plus_cursor _ DReachable.init



theorem specEditStep_bounds (cfg : ItemCfg) (p : ℤ × ℚ) (delta : ℤ)
    (hb : (effBounds cfg).1 ≤ (effBounds cfg).2)
    (h1 : (effBounds cfg).1 ≤ p.1) (h2 : p.1 ≤ (effBounds cfg).2)
    (h3 : 0 ≤ p.2) (h4 : p.2 ≤ 1) :
    (effBounds cfg).1 ≤ (specEditStep cfg p delta).1 ∧
    (specEditStep cfg p delta).1 ≤ (effBounds cfg).2 ∧
    0 ≤ (specEditStep cfg p delta).2 ∧ (specEditStep cfg p delta).2 ≤ 1 := by
  by_cases hbr : cfg.ty = "brightness_bar"
  · have he : effBounds cfg = (cfg.minV.getD 0, cfg.maxV.getD 255) := by
      simp [effBounds, hbr]
    rw [he] at hb ⊢
    simp only [specEditStep, if_pos hbr]
    have hm := pythonRound_clampQ_mem hb
      ((p.1 : ℚ) + (if delta < 0 then ((cfg.maxV.getD 255 : ℚ) - (cfg.minV.getD 0 : ℚ)) / 110
        else -(((cfg.maxV.getD 255 : ℚ) - (cfg.minV.getD 0 : ℚ)) / 110)))
    exact ⟨hm.1, hm.2, h3, h4⟩
  · by_cases hhue : cfg.ty = "hue_bar"
    · simp only [specEditStep, if_neg hbr, if_pos hhue]
      have hm := clampQ_mem (by norm_num : (0:ℚ) ≤ 1)
        (p.2 + (if delta < 0 then (1 : ℚ) / 110 else -(1 / 110)))
      exact ⟨h1, h2, hm.1, hm.2⟩
    · by_cases hth : cfg.ty = "threshold_bar"
      · have he : effBounds cfg = (cfg.minV.getD 0, cfg.maxV.getD 150) := by
          simp [effBounds, hbr, hth]
        rw [he] at hb ⊢
        simp only [specEditStep, if_neg hbr, if_neg hhue, if_pos hth]
        have hm := pythonRound_clampQ_mem hb
          ((p.1 : ℚ) + (if delta < 0 then ((cfg.maxV.getD 150 : ℚ) - (cfg.minV.getD 0 : ℚ)) / 110
            else -(((cfg.maxV.getD 150 : ℚ) - (cfg.minV.getD 0 : ℚ)) / 110)))
        exact ⟨hm.1, hm.2, h3, h4⟩
      · have he : effBounds cfg = (cfg.minV.getD 0, cfg.maxV.getD 255) := by
          simp [effBounds, hbr, hth]
        rw [he] at hb ⊢
        simp only [specEditStep, if_neg hbr, if_neg hhue, if_neg hth]
        have hm := clampZ_mem hb
          (p.1 + (if delta < 0 then (if delta.natAbs = 1 then (1:ℤ) else 5)
            else -(if delta.natAbs = 1 then (1:ℤ) else 5)))
        exact ⟨hm.1, hm.2, h3, h4⟩



theorem dmMoveCursorDown_edit (env : Env) (now : ℚ) (s : DMState) :
    (dmMoveCursorDown env now s).editConfig = s.editConfig ∧
    (dmMoveCursorDown env now s).editMode = s.editMode ∧
    (dmMoveCursorDown env now s).bootScreenActive = s.bootScreenActive ∧
    (dmMoveCursorDown env now s).editValue = s.editValue ∧
    (dmMoveCursorDown env now s).editValueFloat = s.editValueFloat := by
  obtain ⟨_, _, w3, w4, w5, w6, w7, _⟩ := wakeDisplay_edit env now s
  unfold dmMoveCursorDown
  dsimp only
  split
  · exact ⟨w6, w3, w7, w4, w5⟩
  · exact ⟨w6, w3, w7, w4, w5⟩

theorem dmMoveCursorUp_edit (env : Env) (now : ℚ) (s : DMState) :
    (dmMoveCursorUp env now s).editConfig = s.editConfig ∧
    (dmMoveCursorUp env now s).editMode = s.editMode ∧
    (dmMoveCursorUp env now s).bootScreenActive = s.bootScreenActive ∧
    (dmMoveCursorUp env now s).editValue = s.editValue ∧
    (dmMoveCursorUp env now s).editValueFloat = s.editValueFloat := by
  obtain ⟨_, _, w3, w4, w5, w6, w7, _⟩ := wakeDisplay_edit env now s
  unfold dmMoveCursorUp
  dsimp only
  split
  · exact ⟨w6, w3, w7, w4, w5⟩
  · exact ⟨w6, w3, w7, w4, w5⟩

theorem refreshCurrentMenu_editMode (env : Env) (now : ℚ) (p : Bool) (s : DMState) :
    (refreshCurrentMenu env now p s).editMode = s.editMode :=
  (refreshCurrentMenu_core env now p s).2.2.1

theorem refreshCurrentMenu_editValue (env : Env) (now : ℚ) (p : Bool) (s : DMState) :
    (refreshCurrentMenu env now p s).editValue = s.editValue :=
  (refreshCurrentMenu_core env now p s).2.2.2.1

theorem refreshCurrentMenu_editValueFloat (env : Env) (now : ℚ) (p : Bool) (s : DMState) :
    (refreshCurrentMenu env now p s).editValueFloat = s.editValueFloat :=
  (refreshCurrentMenu_core env now p s).2.2.2.2.1

theorem refreshCurrentMenu_editConfig (env : Env) (now : ℚ) (p : Bool) (s : DMState) :
    (refreshCurrentMenu env now p s).editConfig = s.editConfig :=
  (refreshCurrentMenu_core env now p s).2.2.2.2.2.1

theorem refreshCurrentMenu_boot (env : Env) (now : ℚ) (p : Bool) (s : DMState) :
    (refreshCurrentMenu env now p s).bootScreenActive = s.bootScreenActive :=
  (refreshCurrentMenu_core env now p s).2.2.2.2.2.2.1

theorem renderThresholdBarState_editValue (env : Env) (now : ℚ) (s : DMState) :
    (renderThresholdBarState env now s).editValue = s.editValue :=
  (renderThresholdBarState_edit env now s).2.2.1

theorem renderThresholdBarState_editValueFloat (env : Env) (now : ℚ) (s : DMState) :
    (renderThresholdBarState env now s).editValueFloat = s.editValueFloat :=
  (renderThresholdBarState_edit env now s).2.2.2.1

theorem renderThresholdBarState_editConfig (env : Env) (now : ℚ) (s : DMState) :
    (renderThresholdBarState env now s).editConfig = s.editConfig :=
  (renderThresholdBarState_edit env now s).2.2.2.2.1

theorem renderThresholdBarState_editMode (env : Env) (now : ℚ) (s : DMState) :
    (renderThresholdBarState env now s).editMode = s.editMode :=
  (renderThresholdBarState_edit env now s).2.1

theorem renderThresholdBarState_boot (env : Env) (now : ℚ) (s : DMState) :
    (renderThresholdBarState env now s).bootScreenActive = s.bootScreenActive :=
  (renderThresholdBarState_edit env now s).2.2.2.2.2

theorem encoderRotated_step (env : Env) (now : ℚ) (delta : ℤ) (s : DMState) :
    (encoderRotated env now delta s).editConfig = s.editConfig ∧
    (encoderRotated env now delta s).editMode = s.editMode ∧
    (encoderRotated env now delta s).bootScreenActive = s.bootScreenActive ∧
    (((encoderRotated env now delta s).editValue,
        (encoderRotated env now delta s).editValueFloat) =
          specEditStep s.editConfig (s.editValue, s.editValueFloat) delta ∨
      ((encoderRotated env now delta s).editValue = s.editValue ∧
        (encoderRotated env now delta s).editValueFloat = s.editValueFloat)) ∧
    (s.editMode = true → s.bootScreenActive = false →
      ((encoderRotated env now delta s).editValue,
        (encoderRotated env now delta s).editValueFloat) =
          specEditStep s.editConfig (s.editValue, s.editValueFloat) delta) := by
  obtain ⟨_, _, w3, w4, w5, w6, w7, _⟩ := wakeDisplay_edit env now s
  unfold encoderRotated
  dsimp only
  split
  · -- boot screen active: the wake is the whole effect
    next hb =>
    refine ⟨w6, w3, w7, Or.inr ⟨w4, w5⟩, ?_⟩
    intro _ hBoot
    rw [w7, hBoot] at hb
    exact absurd hb (by simp)
  · next hb =>
    split
    · -- edit mode
      next hEditM =>
      split
      · -- brightness bar
        next hty =>
        have hty' : s.editConfig.ty = "brightness_bar" := by rw [← w6]; exact hty
        refine ⟨w6, by dsimp only; rw [w3], w7, Or.inl ?_, fun _ _ => ?_⟩ <;>
          · dsimp only
            rw [w6, w4, w5]
            simp only [specEditStep, if_pos hty']
      · next hnb =>
        split
        · -- hue bar
          next hty =>
          have hty' : s.editConfig.ty = "hue_bar" := by rw [← w6]; exact hty
          have htyb : ¬ s.editConfig.ty = "brightness_bar" := by rw [hty']; decide
          refine ⟨w6, by dsimp only; rw [w3], w7, Or.inl ?_, fun _ _ => ?_⟩ <;>
            · dsimp only
              rw [w4, w5]
              simp only [specEditStep, if_neg htyb, if_pos hty']
        · next hnh =>
          split
          · -- threshold bar
            next hty =>
            have hty' : s.editConfig.ty = "threshold_bar" := by rw [← w6]; exact hty
            have htyb : ¬ s.editConfig.ty = "brightness_bar" := by rw [hty']; decide
            have htyh : ¬ s.editConfig.ty = "hue_bar" := by rw [hty']; decide
            refine ⟨?_, ?_, ?_, Or.inl ?_, fun _ _ => ?_⟩
            · rw [renderThresholdBarState_editConfig]
              dsimp only
              exact w6
            · rw [renderThresholdBarState_editMode]
              dsimp only
              rw [w3]
            · rw [renderThresholdBarState_boot]
              dsimp only
              exact w7
            · rw [renderThresholdBarState_editValue, renderThresholdBarState_editValueFloat]
              dsimp only
              rw [w6, w4, w5]
              simp only [specEditStep, if_neg htyb, if_neg htyh, if_pos hty']
            · rw [renderThresholdBarState_editValue, renderThresholdBarState_editValueFloat]
              dsimp only
              rw [w6, w4, w5]
              simp only [specEditStep, if_neg htyb, if_neg htyh, if_pos hty']
          · -- SimpleValue
            next hnt =>
            have htyb : ¬ s.editConfig.ty = "brightness_bar" := by
              intro hc; rw [← w6] at hc; exact hnb hc
            have htyh : ¬ s.editConfig.ty = "hue_bar" := by
              intro hc; rw [← w6] at hc; exact hnh hc
            have htyt : ¬ s.editConfig.ty = "threshold_bar" := by
              intro hc; rw [← w6] at hc; exact hnt hc
            refine ⟨?_, ?_, ?_, Or.inl ?_, fun _ _ => ?_⟩
            · rw [refreshCurrentMenu_editConfig]
              dsimp only
              exact w6
            · rw [refreshCurrentMenu_editMode]
              dsimp only
              rw [w3]
            · rw [refreshCurrentMenu_boot]
              dsimp only
              exact w7
            · rw [refreshCurrentMenu_editValue, refreshCurrentMenu_editValueFloat]
              dsimp only
              rw [w6, w4, w5]
              simp only [specEditStep, if_neg htyb, if_neg htyh, if_neg htyt]
            · rw [refreshCurrentMenu_editValue, refreshCurrentMenu_editValueFloat]
              dsimp only
              rw [w6, w4, w5]
              simp only [specEditStep, if_neg htyb, if_neg htyh, if_neg htyt]
    · -- not edit mode: rotation moves the cursor
      next hEditM =>
      have hEdit : s.editMode = false := by
        cases hsm : s.editMode
        · rfl
        · rw [← w3] at hsm; exact absurd hsm hEditM
      split
      · obtain ⟨m1, m2, m3, m4, m5⟩ := dmMoveCursorUp_edit env now (wakeDisplay env now s)
        refine ⟨m1.trans w6, (m2.trans w3), m3.trans w7,
          Or.inr ⟨m4.trans w4, m5.trans w5⟩, fun hE _ => ?_⟩
        rw [hE] at hEdit
        exact absurd hEdit (by simp)
      · obtain ⟨m1, m2, m3, m4, m5⟩ := dmMoveCursorDown_edit env now (wakeDisplay env now s)
        refine ⟨m1.trans w6, (m2.trans w3), m3.trans w7,
          Or.inr ⟨m4.trans w4, m5.trans w5⟩, fun hE _ => ?_⟩
        rw [hE] at hEdit
        exact absurd hEdit (by simp)



/-- C3 -/
theorem edit_bounds_invariant (env : Env) (events : List (ℚ × ℤ)) (s : DMState)
    (hb : (effBounds s.editConfig).1 ≤ (effBounds s.editConfig).2)
    (hInv : EditInv s) :
    EditInv (events.foldl (fun t e => encoderRotated env e.1 e.2 t) s) := by
  induction events generalizing s with
  | nil => exact hInv
  | cons e rest ih =>
      simp only [List.foldl_cons]
      obtain ⟨hcfg, _, _, hval, _⟩ := encoderRotated_step env e.1 e.2 s
      apply ih
      · rw [hcfg]; exact hb
      · obtain ⟨i1, i2, i3, i4⟩ := hInv
        rcases hval with heq | ⟨hv, hf⟩
        · have hsb := specEditStep_bounds s.editConfig (s.editValue, s.editValueFloat)
            e.2 hb i1 i2 i3 i4
          have h1 := congrArg Prod.fst heq
          have h2 := congrArg Prod.snd heq
          dsimp only at h1 h2
          unfold EditInv
          rw [hcfg, h1, h2]
          exact ⟨hsb.1, hsb.2.1, hsb.2.2.1, hsb.2.2.2⟩
        · unfold EditInv
          rw [hcfg, hv, hf]
          exact ⟨i1, i2, i3, i4⟩

/-- C4 amended -/
theorem edit_value_per_step_formula (env : Env) (events : List (ℚ × ℤ)) (s : DMState)
    (hEdit : s.editMode = true) (hBoot : s.bootScreenActive = false) :
    ((events.foldl (fun t e => encoderRotated env e.1 e.2 t) s).editValue,
      (events.foldl (fun t e => encoderRotated env e.1 e.2 t) s).editValueFloat) =
      events.foldl (fun p e => specEditStep s.editConfig p e.2)
        (s.editValue, s.editValueFloat) := by
  induction events generalizing s with
  | nil => rfl
  | cons e rest ih =>
      simp only [List.foldl_cons]
      obtain ⟨hcfg, hmode, hboot2, _, himp⟩ := encoderRotated_step env e.1 e.2 s
      have heq := himp hEdit hBoot
      have ih' := ih (encoderRotated env e.1 e.2 s)
        (by rw [hmode]; exact hEdit) (by rw [hboot2]; exact hBoot)
      rw [ih', hcfg, heq]

theorem pythonRound_eq_of_floor_lt (f : ℤ) {q : ℚ} (hf : ⌊q⌋ = f) (h : q - f < 1/2) :
    pythonRound q = f := by
  unfold pythonRound
  dsimp only
  rw [hf, if_pos h]

theorem pythonRound_eq_of_floor_gt (f : ℤ) {q : ℚ} (hf : ⌊q⌋ = f) (h : 1/2 < q - f) :
    pythonRound q = f + 1 := by
  unfold pythonRound
  dsimp only
  rw [hf, if_neg (by linarith), if_pos h]

/-- C4 counterexample -/
theorem edit_value_sum_formula_counterexample :
    ([((0:ℚ), (-1:ℤ)), ((0:ℚ), (-1:ℤ))].foldl
        (fun t e => encoderRotated env0 e.1 e.2 t) sEditB).editValue ≠
      pythonRound (clampQ 0 255 ((0 : ℚ) + (((255:ℚ) - 0) / 110 + ((255:ℚ) - 0) / 110))) := by
  have hs1 : encoderRotated env0 0 (-1) sEditB =
      { sEditB with lastActivity := 0, editValue := 2 } := by
    simp only [encoderRotated, wakeDisplay, sEditB, s0, editItemB, ItemCfg.ty]
    norm_num
    rw [show clampQ 0 255 ((51:ℚ)/22) = 51/22 by norm_num [clampQ, max_def, min_def]]
    exact pythonRound_eq_of_floor_lt 2 (by norm_num [Int.floor_eq_iff]) (by norm_num)
  have hs2 : encoderRotated env0 0 (-1) { sEditB with lastActivity := 0, editValue := 2 } =
      { sEditB with lastActivity := 0, editValue := 4 } := by
    simp only [encoderRotated, wakeDisplay, sEditB, s0, editItemB, ItemCfg.ty]
    norm_num
    rw [show clampQ 0 255 ((95:ℚ)/22) = 95/22 by norm_num [clampQ, max_def, min_def]]
    exact pythonRound_eq_of_floor_lt 4 (by norm_num [Int.floor_eq_iff]) (by norm_num)
  have hrhs : pythonRound (clampQ 0 255
      ((0 : ℚ) + (((255:ℚ) - 0) / 110 + ((255:ℚ) - 0) / 110))) = 5 := by
    rw [show ((0 : ℚ) + (((255:ℚ) - 0) / 110 + ((255:ℚ) - 0) / 110)) = 51/11 by norm_num,
      show clampQ 0 255 ((51:ℚ)/11) = 51/11 by norm_num [clampQ, max_def, min_def],
      pythonRound_eq_of_floor_gt 4 (by norm_num [Int.floor_eq_iff]) (by norm_num)]
    norm_num
  have hfold : ([((0:ℚ), (-1:ℤ)), ((0:ℚ), (-1:ℤ))].foldl
      (fun t e => encoderRotated env0 e.1 e.2 t) sEditB) =
      encoderRotated env0 0 (-1) (encoderRotated env0 0 (-1) sEditB) := rfl
  rw [hfold, hs1, hs2, hrhs]
  dsimp only
  norm_num

/-- C4 witness -/
theorem edit_value_per_step_formula_witness :
    (([((0:ℚ), (-1:ℤ))].foldl (fun t e => encoderRotated env0 e.1 e.2 t) sEditB).editValue,
      ([((0:ℚ), (-1:ℤ))].foldl (fun t e => encoderRotated env0 e.1 e.2 t) sEditB).editValueFloat) =
      [((0:ℚ), (-1:ℤ))].foldl (fun p e => specEditStep sEditB.editConfig p e.2)
        (sEditB.editValue, sEditB.editValueFloat) :=
  edit_value_per_step_formula env0 [((0:ℚ), (-1:ℤ))] sEditB rfl rfl

/-- C3 witness -/
theorem edit_bounds_invariant_witness :
    EditInv ([((0:ℚ), (-1:ℤ)), ((0:ℚ), (1:ℤ))].foldl
      (fun t e => encoderRotated env0 e.1 e.2 t) sEditB) :=
  edit_bounds_invariant env0 [((0:ℚ), (-1:ℤ)), ((0:ℚ), (1:ℤ))] sEditB
    (by norm_num [effBounds, sEditB, editItemB, ItemCfg.ty, s0])
    (by norm_num [EditInv, effBounds, sEditB, editItemB, ItemCfg.ty, s0])

theorem strTruthy_some {f : String} (hf : f ≠ "") : strTruthy (some f) = some f := by
  unfold strTruthy
  split
  · next heq => exact absurd (by injection heq) hf
  · rfl


/-- C6 counterexample -/

theorem edit_seed_clamped_counterexample :
    (enterThresholdBarMode env0 0 thresholdItemC6 sLimits200).editValue = 200 ∧
    thresholdItemC6.maxV = some 150 ∧
    ¬ ((enterThresholdBarMode env0 0 thresholdItemC6 sLimits200).editValue ≤ 150) := by
  have h1 : (enterThresholdBarMode env0 0 thresholdItemC6 sLimits200).editValue = 200 := by
    unfold enterThresholdBarMode
    rw [show strTruthy thresholdItemC6.sensor = some "mic" from rfl]
    dsimp only
    rw [show env0.sensorDetails "mic" = none from rfl]
    dsimp only
    rw [renderThresholdBarState_editValue]
    norm_num [sLimits200, s0, pyInt]
  refine ⟨h1, rfl, by rw [h1]; norm_num⟩


/-- C6 amended -/

theorem edit_seed_raw (env : Env) (now : ℚ) (item : ItemCfg) (s : DMState) :
    (∀ sensor, strTruthy item.sensor = some sensor →
      (enterThresholdBarMode env now item s).editValue =
        pyInt ((s.sensorLimits sensor).getD 0)) ∧
    (∀ f, strTruthy item.function = some f → pyIn "display_brightness" f = true →
      (enterEditMode env now item s).editValue =
        s.settings.getIntD "display_brightness" 180) ∧
    (∀ f, strTruthy item.function = some f → pyIn "display_brightness" f = false →
        pyIn "led_brightness" f = true →
      (enterEditMode env now item s).editValue =
        s.settings.getIntD "led_brightness" 255) ∧
    (pyIn "display_brightness" (item.function.getD "") = true →
      (enterBrightnessBarMode env item s).editValue =
        s.settings.getIntD "display_brightness" 180) ∧
    (pyIn "display_brightness" (item.function.getD "") = false →
        pyIn "led_brightness" (item.function.getD "") = true →
      (enterBrightnessBarMode env item s).editValue =
        s.settings.getIntD "led_brightness" 255) := by
  refine ⟨?_, ?_, ?_, ?_, ?_⟩
  · intro sensor hs
    unfold enterThresholdBarMode
    rw [hs]
    dsimp only
    split
    · rw [renderThresholdBarState_editValue]
    · rw [renderThresholdBarState_editValue]
  · intro f hf hpy
    unfold enterEditMode
    rw [hf]
    dsimp only
    rw [hpy]
    simp only [if_true]
    rw [refreshCurrentMenu_editValue]
  · intro f hf hpy1 hpy2
    unfold enterEditMode
    rw [hf]
    dsimp only
    rw [hpy1, hpy2]
    simp only [if_true, Bool.false_eq_true, if_false]
    rw [refreshCurrentMenu_editValue]
  · intro hpy
    unfold enterBrightnessBarMode
    dsimp only
    rw [hpy]
    simp only [if_true]
  · intro hpy1 hpy2
    unfold enterBrightnessBarMode
    dsimp only
    rw [hpy1, hpy2]
    simp only [if_true, Bool.false_eq_true, if_false]
    split
    · rfl
    · rfl


/-- C6 witness -/

theorem edit_seed_raw_witness :
    (enterThresholdBarMode env0 0 thresholdItemC6 sLimits200).editValue =
      pyInt ((sLimits200.sensorLimits "mic").getD 0) :=
  (edit_seed_raw env0 0 thresholdItemC6 sLimits200).1 "mic" rfl


/-- C7 counterexample -/

theorem rotation_sleep_counterexample :
    sSleep.displaySleeping = true ∧
    (encoderRotated envMain2 0 (-1) sSleep).display.cursorPosition = 1 ∧
    (wakeDisplay envMain2 0 sSleep).display.cursorPosition = 0 := by
  refine ⟨rfl, ?_, ?_⟩ <;> decide


/-- C7 amended -/

theorem button_sleep_wake_only (env : Env) (now : ℚ) (s : DMState)
    (h : s.displaySleeping = true) :
    buttonPressed env now s = wakeDisplay env now s := by
  unfold buttonPressed
  dsimp only
  split
  · rfl
  · next hc => exact absurd h hc


/-- C7 witness -/

theorem button_sleep_wake_only_witness :
    buttonPressed envMain2 0 sSleep = wakeDisplay envMain2 0 sSleep :=
  button_sleep_wake_only envMain2 0 sSleep rfl


/-- C1 -/

theorem render_path_degrades_to_sentinels :
    (∀ (env : Env) (name : String), env.registry name = none →
        getDynamicValue env name = "Unknown") ∧
    (∀ (env : Env) (name : String) (e : PyErr), env.registry name = some (.error e) →
        getDynamicValue env name = "Error") ∧
    (∀ e : PyErr, apiGetSensors (.error e) = [] ∧ apiGetLimits (.error e) = (fun _ => none) ∧
        svcStatusStr (.error e) = "?" ∧ apiUpdateLimit (.error e) = false) ∧
    (∀ (env : Env) (s : DMState) (f : String) (e : PyErr), f ≠ "" →
        env.registry f = some (.error e) → s.dynamicValues f = none →
        (formatMenuText env s
          { type_ := some "dynamic", text := some "\x7bv\x7d", function := some f }).text =
          "Error") ∧
    ((refreshCurrentMenu envFail 0 false s0).display.currentMenu =
      some (MenuL.ofItems
        [⟨"Error", none, false⟩, ⟨"Sensors: 0", none, false⟩])) := by
  refine ⟨?_, ?_, ?_, ?_, ?_⟩
  · intro env name h
    unfold getDynamicValue
    rw [h]
  · intro env name e h
    unfold getDynamicValue
    rw [h]
  · intro e
    exact ⟨rfl, rfl, rfl, rfl⟩
  · intro env s f e hf hreg hdyn
    unfold formatMenuText
    rw [strTruthy_some hf]
    dsimp only [ItemCfg.ty]
    rw [hdyn]
    simp only [Option.getD_none]
    unfold getDynamicValue
    rw [hreg]
    dsimp only
    rw [if_neg (by decide)]
    dsimp only
    rw [if_pos (by decide)]
    decide
  · decide


/-- C1 witness -/

theorem render_path_degrades_to_sentinels_witness :
    getDynamicValue env0 "nope" = "Unknown" ∧ getDynamicValue envFail "f" = "Error" :=
  ⟨render_path_degrades_to_sentinels.1 env0 "nope" rfl,
    render_path_degrades_to_sentinels.2.1 envFail "f" "boom" rfl⟩


end DBSentry
